import Mathlib

/-!
# `ddev describe`: the report renderer and its command handler

A shallow embedding of `cmd/ddev/cmd/describe.go`.

* Go's `interface{}` is the type `Value` of dynamically typed values; the snapshot
  `map[string]interface{}` is an association list read by `GoMap.lookup` (the
  comma-ok read) and `GoMap.index` (the plain read, `nil` for a missing key).
* A plain type assertion `x.(T)` that fails is a run-time panic; it is the `panic`
  constructor of `Result`, next to the normal return `(string, error)`.
* What the file imports from other packages (`ddevapp`, `dockerutil`, `uitable`, `fmt`)
  is a field of `Env`: the theorems hold for every value of these.
-/

namespace Describe

/-! ## Values and maps -/

/-- A Go `interface{}` value, by dynamic type. -/
inductive Value where
  /-- The nil interface; also what indexing a map at a missing key gives. -/
  | nil
  /-- Dynamic type `string`. -/
  | str (s : String)
  /-- Dynamic type `int`. -/
  | int (n : Int)
  /-- Dynamic type `[]string`. -/
  | strList (xs : List String)
  /-- Dynamic type `map[string]interface{}`. -/
  | map (m : List (String × Value))
  /-- Any other dynamic type, named by `tag`. -/
  | other (tag : String)

/-- A Go `map[string]interface{}`: the first entry with a key is the binding of that key. -/
abbrev GoMap := List (String × Value)

/-- The comma-ok read `v, ok := m[k]`: `none` when the key is not in the map. -/
def GoMap.lookup : GoMap → String → Option Value
  | [], _ => none
  | (k, v) :: rest, key => if k = key then some v else GoMap.lookup rest key

/-- The plain read `m[k]`: the zero value of `interface{}` (nil) for a missing key. -/
def GoMap.index (m : GoMap) (key : String) : Value :=
  match m.lookup key with
  | some v => v
  | none => Value.nil

/-- The comparison `v == c` of an `interface{}` with a string constant: true exactly when
the dynamic type is `string` and the strings are equal. -/
def Value.eqString : Value → String → Bool
  | Value.str s, c => decide (s = c)
  | _, _ => false

/-- A Go `error` value that is not nil. -/
structure GoError where
  msg : String
  deriving DecidableEq, Repr

/-! ## The table library and `fmt` -/

/-- A `uitable.Table`, as far as this file touches it: the width limit and the rows added. -/
structure UITable where
  MaxColWidth : Nat
  Rows : List (List Value)

/-- `uitable.New()`. -/
def UITable.New : UITable := { MaxColWidth := 0, Rows := [] }

/-- `t.AddRow(cells...)`: one more row, after the existing ones. -/
def UITable.AddRow (t : UITable) (cells : List Value) : UITable :=
  { t with Rows := t.Rows ++ [cells] }

/-- `strings.Join(elems, sep)`: nothing for no element, the element itself for one, and
otherwise the first element followed by `sep` and the next element, for each further one. -/
def stringsJoin : List String → String → String
  | [], _ => ""
  | [a], _ => a
  | a :: rest, sep => rest.foldl (fun b s => b ++ sep ++ s) a

/-- The calls the renderer makes to collaborators outside the process, in order. -/
inductive Call where
  | GetDockerIP
  | RenderRouterStatus
  | RenderSSHAuthStatus
  deriving DecidableEq, Repr

/-- What `describe.go` takes from other packages. -/
structure Env where
  /-- The constant `ddevapp.SiteRunning`. -/
  SiteRunning : String
  /-- `ddevapp.CreateAppTable()`. -/
  CreateAppTable : UITable
  /-- `ddevapp.RenderAppRow(table, desc)`: the table after the call. -/
  RenderAppRow : UITable → GoMap → UITable
  /-- `fmt.Sprint(table)`, which is the table's `String()`. -/
  Sprint : UITable → String
  /-- `dockerutil.GetDockerIP()`: the address and the error (`none` is a nil error). -/
  GetDockerIP : String × Option GoError
  /-- `ddevapp.RenderRouterStatus()`. -/
  RenderRouterStatus : String
  /-- `ddevapp.RenderSSHAuthStatus()`. -/
  RenderSSHAuthStatus : String
  /-- What `fmt` prints for the verb `%d` at an operand that is not an integer. -/
  badVerbD : Value → String

/-- The verb `%d` of `fmt.Sprintf` at an `interface{}` operand: decimal for an `int`. -/
def Env.fmtD (env : Env) : Value → String
  | Value.int n => toString n
  | v => env.badVerbD v

/-! ## `renderAppDescribe` -/

/-- How a call of `renderAppDescribe` ends. -/
inductive Result where
  /-- A plain type assertion failed; `field` is the key whose value was asserted. -/
  | panic (field : String)
  /-- The function returned `(output, err)`; `none` is the nil error. -/
  | ret (output : String) (err : Option GoError)
  deriving DecidableEq, Repr

/-- A finished call: the collaborator calls made, in order, and how it ended. -/
structure Rendered where
  calls : List Call
  result : Result
  deriving DecidableEq, Repr

/-- Lines 59-61: the base summary table, printed. -/
def baseSummary (env : Env) (desc : GoMap) : String :=
  let appTable := env.CreateAppTable
  let appTable := env.RenderAppRow appTable desc
  env.Sprint appTable

/-- Lines 66-69: the Project Information table; `none` when `desc["urls"].([]string)`
panics. -/
def siteInfo (desc : GoMap) : Option UITable :=
  let siteInfo := UITable.New
  let siteInfo := siteInfo.AddRow [Value.str "PHP version:", desc.index "php_version"]
  match desc.index "urls" with
  | Value.strList urls => some (siteInfo.AddRow [Value.str "URLs:", Value.str (stringsJoin urls ", ")])
  | _ => none

/-- Lines 77 and 81-91: what the credentials block adds to the output for the mapping
`dbinfo`: the printed table and the connection hint when `username` is a string, and
nothing otherwise. -/
def credentials (env : Env) (dbinfo : GoMap) (dockerIP : String) : String :=
  let maxWidth := 200
  let dbTable := UITable.New
  match dbinfo.index "username" with
  | Value.str _ =>
    let dbTable := { dbTable with MaxColWidth := maxWidth }
    let dbTable := dbTable.AddRow [Value.str "Username:", dbinfo.index "username"]
    let dbTable := dbTable.AddRow [Value.str "Password:", dbinfo.index "password"]
    let dbTable := dbTable.AddRow [Value.str "Database name:", dbinfo.index "dbname"]
    let dbTable := dbTable.AddRow [Value.str "Host:", dbinfo.index "host"]
    let dbTable := dbTable.AddRow [Value.str "Port:", dbinfo.index "port"]
    let dbTable := dbTable.AddRow [Value.str "MariaDB version", dbinfo.index "mariadb_version"]
    env.Sprint dbTable
      ++ ("\nTo connect to mysql from your host machine, use port "
          ++ env.fmtD (dbinfo.index "published_port") ++ " on " ++ dockerIP
          ++ ".\nFor example: mysql --host=" ++ dockerIP ++ " --port="
          ++ env.fmtD (dbinfo.index "published_port")
          ++ " --user=db --password=db --database=db")
  | _ => ""

/-- Lines 93-97: the Other Services table. -/
def otherServices (desc : GoMap) : UITable :=
  let other := UITable.New
  let other := other.AddRow [Value.str "MailHog:", desc.index "mailhog_url"]
  match desc.lookup "phpmyadmin_url" with
  | some _ => other.AddRow [Value.str "phpMyAdmin:", desc.index "phpmyadmin_url"]
  | none => other

/-- The function `renderAppDescribe(desc)` of `describe.go`, lines 52-104. -/
def renderAppDescribe (env : Env) (desc : GoMap) : Rendered :=
  let status := desc.index "status"
  let output := baseSummary env desc
  if status.eqString env.SiteRunning then
    let output := output ++ "\n\nProject Information\n-----------------\n"
    match siteInfo desc with
    | none => { calls := [], result := Result.panic "urls" }
    | some siteInfo =>
      let output := output ++ env.Sprint siteInfo
      match env.GetDockerIP with
      | (_, some err) => { calls := [Call.GetDockerIP], result := Result.ret "" (some err) }
      | (dockerIP, none) =>
        let output := output ++ "\n\nMySQL Credentials\n-----------------\n"
        match desc.index "dbinfo" with
        | Value.map dbinfo =>
          let output := output ++ credentials env dbinfo dockerIP
          let output := output ++ "\n\nOther Services\n--------------\n"
          let output := output ++ env.Sprint (otherServices desc)
          let output := output ++ "\n" ++ env.RenderRouterStatus ++ "\t" ++ env.RenderSSHAuthStatus
          { calls := [Call.GetDockerIP, Call.RenderRouterStatus, Call.RenderSSHAuthStatus],
            result := Result.ret output none }
        | _ => { calls := [Call.GetDockerIP], result := Result.panic "dbinfo" }
  else
    { calls := [], result := Result.ret output none }

/-! ## The command handler -/

/-- A project, as far as the handler reads it. -/
structure Project where
  Name : String

/-- What the handler does, as seen from outside. -/
inductive Event where
  /-- A call of `getRequestedProjects(args, all)`. -/
  | getRequestedProjects (args : List String) (all : Bool)
  /-- A call of `ddevapp.CheckForMissingProjectFiles(project)`. -/
  | CheckForMissingProjectFiles (project : Project)
  /-- A call of `project.Describe()`. -/
  | Describe (project : Project)
  /-- A call of `renderAppDescribe(desc)`. -/
  | renderAppDescribe (desc : GoMap)
  /-- An error message reported to the user. -/
  | reported (message : String)
  /-- The report printed, with the raw snapshot in the field `raw`. -/
  | Print (raw : GoMap) (text : String)

/-- The ways the handler stops before its last line. -/
inductive Exit where
  /-- The process was ended by `util.Failed` or `util.CheckErr`. -/
  | failed
  /-- A run-time panic. -/
  | panicked
  deriving DecidableEq, Repr

/-- A piece of the handler: from the events so far to the events after it, and a value or
the way the handler stopped. -/
def Handler (α : Type) : Type := List Event → List Event × Except Exit α

instance : Monad Handler where
  pure a := fun log => (log, Except.ok a)
  bind m f := fun log =>
    match m log with
    | (log1, Except.ok a) => f a log1
    | (log1, Except.error e) => (log1, Except.error e)

/-- Record one event. -/
def emit (e : Event) : Handler Unit := fun log => (log ++ [e], Except.ok ())

/-- Stop the handler. -/
def stop {α : Type} (e : Exit) : Handler α := fun log => (log, Except.error e)

/-- Modelled from the spec: `util.Failed` of `pkg/util`, which is not among the sources.
The specification has an error "reported immediately, process aborts, no further work
attempted": the message is reported and the handler stops there. -/
def util.Failed (message : String) : Handler Unit := do
  emit (Event.reported message)
  stop Exit.failed

/-- Modelled from the spec: `util.CheckErr` of `pkg/util`, which is not among the sources.
A nil error goes on; a render error is "reported, process aborts". -/
def util.CheckErr (err : Option GoError) : Handler Unit :=
  match err with
  | none => pure ()
  | some e => do
    emit (Event.reported e.msg)
    stop Exit.failed

/-- What the handler takes from other packages, next to what the renderer takes. -/
structure CmdEnv extends Env where
  /-- The function `getRequestedProjects(args, all)` of package `cmd`. -/
  getRequestedProjects : List String → Bool → List Project × Option GoError
  /-- `ddevapp.CheckForMissingProjectFiles(project)`; `none` is the nil error. -/
  CheckForMissingProjectFiles : Project → Option GoError
  /-- `project.Describe()`. -/
  Describe : Project → GoMap × Option GoError

/-- The `Run` function of `DescribeCommand`, lines 25-48. -/
def DescribeCommand.Run (env : CmdEnv) (args : List String) : Handler Unit := do
  if args.length > 1 then
    util.Failed "Too many arguments provided. Please use 'ddev describe' or 'ddev describe [projectname]'"
  emit (Event.getRequestedProjects args false)
  let (projects, err) := env.getRequestedProjects args false
  if let some e := err then
    util.Failed ("Failed to describe project(s): " ++ e.msg)
  let project ← match projects with
    | project :: _ => pure project
    | [] => stop Exit.panicked
  emit (Event.CheckForMissingProjectFiles project)
  if let some e := env.CheckForMissingProjectFiles project then
    util.Failed ("Failed to describe " ++ project.Name ++ ": " ++ e.msg)
  emit (Event.Describe project)
  let (desc, err) := env.Describe project
  if let some e := err then
    util.Failed ("Failed to describe project " ++ project.Name ++ ": " ++ e.msg)
  emit (Event.renderAppDescribe desc)
  match (renderAppDescribe env.toEnv desc).result with
  | Result.panic _ => stop Exit.panicked
  | Result.ret renderedDesc err =>
    util.CheckErr err
    emit (Event.Print desc renderedDesc)

/-- Whether an event is a call of the project resolver. -/
def Event.isResolve : Event → Bool
  | Event.getRequestedProjects _ _ => true
  | _ => false

/-- Whether an event is a call of the missing-files check. -/
def Event.isMissingFilesCheck : Event → Bool
  | Event.CheckForMissingProjectFiles _ => true
  | _ => false

/-- Whether an event is a snapshot fetch. -/
def Event.isDescribe : Event → Bool
  | Event.Describe _ => true
  | _ => false

/-- Whether an event is a call of the renderer. -/
def Event.isRender : Event → Bool
  | Event.renderAppDescribe _ => true
  | _ => false

/-- Whether an event is a print to the report output. -/
def Event.isPrint : Event → Bool
  | Event.Print _ _ => true
  | _ => false

/-! ## The words of the specification -/

/-- The text `needle` occurs somewhere in `text`. -/
def Occurs (needle text : String) : Prop :=
  ∃ pre post, text = pre ++ needle ++ post

/-- The specification's join of the URL list: the elements in the order given, with the
separator between neighbours; the empty text for no element. -/
def joinedInOrder (sep : String) : List String → String
  | [] => ""
  | [u] => u
  | u :: v :: rest => u ++ sep ++ joinedInOrder sep (v :: rest)

/-- The specification's connection hint for the published port `p` and the host `ip`. -/
def connectionHint (p : Int) (ip : String) : String :=
  "\nTo connect to mysql from your host machine, use port " ++ toString p ++ " on " ++ ip
    ++ ".\nFor example: mysql --host=" ++ ip ++ " --port=" ++ toString p
    ++ " --user=db --password=db --database=db"

/-- The specification's layout: the sections in order, a blank line between neighbours. -/
def blankLineSeparated (sections : List String) : String :=
  "\n\n".intercalate sections

/-- The credentials table of lines 82-88 for the mapping `dbinfo`. -/
def credentialsTable (dbinfo : GoMap) : UITable :=
  { MaxColWidth := 200,
    Rows := [[Value.str "Username:", dbinfo.index "username"],
             [Value.str "Password:", dbinfo.index "password"],
             [Value.str "Database name:", dbinfo.index "dbname"],
             [Value.str "Host:", dbinfo.index "host"],
             [Value.str "Port:", dbinfo.index "port"],
             [Value.str "MariaDB version", dbinfo.index "mariadb_version"]] }

/-- The Project Information table for the URL list `urls`. -/
def projectInformationTable (desc : GoMap) (urls : List String) : UITable :=
  { MaxColWidth := 0,
    Rows := [[Value.str "PHP version:", desc.index "php_version"],
             [Value.str "URLs:", Value.str (joinedInOrder ", " urls)]] }

/-- The Project Information section: header, rule and the printed table. -/
def sectionProjectInformation (env : Env) (desc : GoMap) (urls : List String) : String :=
  "Project Information\n-----------------\n" ++ env.Sprint (projectInformationTable desc urls)

/-- The MySQL Credentials section: header, rule, the printed table and the connection hint. -/
def sectionCredentials (env : Env) (dbinfo : GoMap) (ip : String) : String :=
  "MySQL Credentials\n-----------------\n" ++ env.Sprint (credentialsTable dbinfo)
    ++ ("\nTo connect to mysql from your host machine, use port "
        ++ env.fmtD (dbinfo.index "published_port") ++ " on " ++ ip
        ++ ".\nFor example: mysql --host=" ++ ip ++ " --port="
        ++ env.fmtD (dbinfo.index "published_port")
        ++ " --user=db --password=db --database=db")

/-- The Other Services section: header, rule and the printed table. -/
def sectionOtherServices (env : Env) (desc : GoMap) : String :=
  "Other Services\n--------------\n" ++ env.Sprint (otherServices desc)

/-- The final status line: the router status, a tab, the SSH-agent status. -/
def statusLine (env : Env) : String :=
  env.RenderRouterStatus ++ "\t" ++ env.RenderSSHAuthStatus

/-! ## A concrete environment and concrete snapshots -/

/-- A plain printing of one cell. -/
def demoCell : Value → String
  | Value.nil => "<nil>"
  | Value.str s => s
  | Value.int n => toString n
  | Value.strList xs => "[" ++ " ".intercalate xs ++ "]"
  | Value.map _ => "map[]"
  | Value.other tag => tag

/-- A plain printing of a table: cells separated by a tab, rows by a newline. -/
def demoSprint (t : UITable) : String :=
  "\n".intercalate (t.Rows.map fun row => "\t".intercalate (row.map demoCell))

/-- An environment in which the Docker host IP lookup succeeds. -/
def demoEnv : Env where
  SiteRunning := "running"
  CreateAppTable := UITable.New.AddRow [Value.str "NAME", Value.str "STATUS"]
  RenderAppRow := fun t desc => t.AddRow [desc.index "name", desc.index "status"]
  Sprint := demoSprint
  GetDockerIP := ("127.0.0.1", none)
  RenderRouterStatus := "router: healthy"
  RenderSSHAuthStatus := "ssh-agent: ok"
  badVerbD := fun v => "%!d(" ++ demoCell v ++ ")"

/-- The same environment with a failing Docker host IP lookup. -/
def failEnv : Env := { demoEnv with GetDockerIP := ("", some { msg := "no docker host" }) }

/-- The `dbinfo` mapping of a running project. -/
def demoDbinfo : GoMap :=
  [("username", Value.str "db"), ("password", Value.str "db"), ("dbname", Value.str "db"),
   ("host", Value.str "db"), ("port", Value.str "3306"), ("published_port", Value.int 32768),
   ("mariadb_version", Value.str "10.2")]

/-- A running project with database credentials and phpMyAdmin. -/
def runningDesc : GoMap :=
  [("name", Value.str "site"), ("status", Value.str "running"), ("php_version", Value.str "7.2"),
   ("urls", Value.strList ["https://a.ddev.site", "https://b.ddev.site"]),
   ("dbinfo", Value.map demoDbinfo), ("mailhog_url", Value.str "http://a.ddev.site:8025"),
   ("phpmyadmin_url", Value.str "http://a.ddev.site:8036")]

/-- The same snapshot of a stopped project: every other field is still populated. -/
def stoppedDesc : GoMap := ("status", Value.str "stopped") :: runningDesc

/-- A running project whose `dbinfo` mapping has no `username`. -/
def noUsernameDesc : GoMap :=
  [("name", Value.str "site"), ("status", Value.str "running"), ("php_version", Value.str "7.2"),
   ("urls", Value.strList ["https://a.ddev.site"]), ("dbinfo", Value.map []),
   ("mailhog_url", Value.str "http://a.ddev.site:8025")]

/-- A running project without the key `dbinfo`. -/
def noDbinfoDesc : GoMap :=
  [("name", Value.str "site"), ("status", Value.str "running"), ("php_version", Value.str "7.2"),
   ("urls", Value.strList ["https://a.ddev.site"]),
   ("mailhog_url", Value.str "http://a.ddev.site:8025")]

/-- A running project without the key `urls`. -/
def noUrlsDesc : GoMap :=
  [("name", Value.str "site"), ("status", Value.str "running"), ("php_version", Value.str "7.2"),
   ("dbinfo", Value.map demoDbinfo)]

/-- A handler environment with one project, which is running. -/
def demoCmdEnv : CmdEnv where
  toEnv := demoEnv
  getRequestedProjects := fun _ _ => ([{ Name := "site" }], none)
  CheckForMissingProjectFiles := fun _ => none
  Describe := fun _ => (runningDesc, none)

/-! ## Lemmas on the embedding -/

/-- The comparison with a string constant holds only for that very string. -/
theorem eqString_eq_true_iff (v : Value) (c : String) :
    v.eqString c = true ↔ v = Value.str c := by
  cases v <;> simp [Value.eqString]

/-- The loop of `strings.Join` computes what the accumulating join of the library does. -/
theorem foldl_eq_intercalate_go (sep : String) (rest : List String) (a : String) :
    rest.foldl (fun b s => b ++ sep ++ s) a = String.intercalate.go a sep rest := by
  induction rest generalizing a with
  | nil => simp [String.intercalate.go]
  | cons x xs ih => simp [String.intercalate.go, ih]

/-- The function `strings.Join` is the join of the list with the separator in between. -/
theorem stringsJoin_eq_intercalate (elems : List String) (sep : String) :
    stringsJoin elems sep = sep.intercalate elems := by
  match elems with
  | [] => simp [stringsJoin, String.intercalate]
  | [a] => simp [stringsJoin, String.intercalate, String.intercalate.go]
  | a :: b :: rest =>
    simp only [stringsJoin, String.intercalate]
    exact foldl_eq_intercalate_go sep (b :: rest) a

/-- The loop of `strings.Join`, started at `a ++ b`, gives `a` followed by the loop
started at `b`. -/
theorem foldl_join_append (sep : String) (rest : List String) (a b : String) :
    rest.foldl (fun c s => c ++ sep ++ s) (a ++ b)
      = a ++ rest.foldl (fun c s => c ++ sep ++ s) b := by
  induction rest generalizing b with
  | nil => simp
  | cons x xs ih =>
    simp only [List.foldl_cons]
    rw [String.append_assoc a b sep, String.append_assoc a (b ++ sep) x]
    exact ih (b ++ sep ++ x)

/-- The function `strings.Join` computes the specification's join. -/
theorem stringsJoin_eq_joinedInOrder (sep : String) (elems : List String) :
    stringsJoin elems sep = joinedInOrder sep elems := by
  induction elems with
  | nil => rfl
  | cons a rest ih =>
    cases rest with
    | nil => rfl
    | cons b rest2 =>
      cases rest2 with
      | nil => simp [stringsJoin, joinedInOrder]
      | cons c rest3 =>
        have h1 : stringsJoin (a :: b :: c :: rest3) sep
            = (c :: rest3).foldl (fun d s => d ++ sep ++ s) (a ++ sep ++ b) := by
          simp [stringsJoin]
        have h2 : stringsJoin (b :: c :: rest3) sep
            = (c :: rest3).foldl (fun d s => d ++ sep ++ s) b := by
          simp [stringsJoin]
        rw [h1, foldl_join_append, ← h2, ih]
        simp [joinedInOrder]

/-- The Project Information table of a snapshot whose `urls` is a string list. -/
theorem siteInfo_of_urls (desc : GoMap) (urls : List String)
    (hurls : desc.index "urls" = Value.strList urls) :
    siteInfo desc = some (projectInformationTable desc urls) := by
  simp [siteInfo, hurls, stringsJoin_eq_joinedInOrder, UITable.New, UITable.AddRow,
    projectInformationTable]

/-- What the credentials block adds when `username` is a string. -/
theorem credentials_of_username (env : Env) (dbinfo : GoMap) (dockerIP user : String)
    (huser : dbinfo.index "username" = Value.str user) :
    credentials env dbinfo dockerIP
      = env.Sprint (credentialsTable dbinfo)
        ++ ("\nTo connect to mysql from your host machine, use port "
          ++ env.fmtD (dbinfo.index "published_port") ++ " on " ++ dockerIP
          ++ ".\nFor example: mysql --host=" ++ dockerIP ++ " --port="
          ++ env.fmtD (dbinfo.index "published_port")
          ++ " --user=db --password=db --database=db") := by
  simp only [credentials]
  rw [huser]
  simp [UITable.New, UITable.AddRow, credentialsTable, huser]

/-- The credentials block adds nothing when `username` is not a string. -/
theorem credentials_of_no_username (env : Env) (dbinfo : GoMap) (dockerIP : String)
    (huser : ∀ user, dbinfo.index "username" ≠ Value.str user) :
    credentials env dbinfo dockerIP = "" := by
  unfold credentials
  split
  · next user h => exact absurd h (huser user)
  · rfl

/-- The whole run for a running project whose `urls` is a string list and whose `dbinfo`
is a mapping, when the Docker host IP lookup succeeds. -/
theorem renderAppDescribe_running (env : Env) (desc : GoMap)
    (dbinfo : GoMap) (dockerIP : String) (tbl : UITable)
    (hstatus : desc.index "status" = Value.str env.SiteRunning)
    (hsite : siteInfo desc = some tbl)
    (hip : env.GetDockerIP = (dockerIP, none))
    (hdb : desc.index "dbinfo" = Value.map dbinfo) :
    renderAppDescribe env desc =
      { calls := [Call.GetDockerIP, Call.RenderRouterStatus, Call.RenderSSHAuthStatus],
        result := Result.ret
          (baseSummary env desc ++ "\n\nProject Information\n-----------------\n"
            ++ env.Sprint tbl ++ "\n\nMySQL Credentials\n-----------------\n"
            ++ credentials env dbinfo dockerIP ++ "\n\nOther Services\n--------------\n"
            ++ env.Sprint (otherServices desc)
            ++ "\n" ++ env.RenderRouterStatus ++ "\t" ++ env.RenderSSHAuthStatus) none } := by
  have h : (desc.index "status").eqString env.SiteRunning = true :=
    (eqString_eq_true_iff _ _).2 hstatus
  simp [renderAppDescribe, h, hsite, hip, hdb]

/-- The whole run for a snapshot whose `status` is not the Running constant. -/
theorem renderAppDescribe_not_running (env : Env) (desc : GoMap)
    (hstatus : desc.index "status" ≠ Value.str env.SiteRunning) :
    renderAppDescribe env desc
      = { calls := [], result := Result.ret (baseSummary env desc) none } := by
  have h : (desc.index "status").eqString env.SiteRunning = false := by
    cases hb : (desc.index "status").eqString env.SiteRunning
    · rfl
    · exact absurd ((eqString_eq_true_iff _ _).1 hb) hstatus
  simp [renderAppDescribe, h]

/-- The whole run for a running project whose `urls` is a string list, when the Docker
host IP lookup fails. -/
theorem renderAppDescribe_lookup_failed (env : Env) (desc : GoMap) (tbl : UITable)
    (ip : String) (e : GoError)
    (hstatus : desc.index "status" = Value.str env.SiteRunning)
    (hsite : siteInfo desc = some tbl)
    (hip : env.GetDockerIP = (ip, some e)) :
    renderAppDescribe env desc
      = { calls := [Call.GetDockerIP], result := Result.ret "" (some e) } := by
  have h : (desc.index "status").eqString env.SiteRunning = true :=
    (eqString_eq_true_iff _ _).2 hstatus
  simp [renderAppDescribe, h, hsite, hip]

/-! ## The renderer off the running state -/

/-- C1: for a snapshot whose `status` is not the Running constant (another string, a value
that is no string, or no `status` key at all), `renderAppDescribe` returns a nil error and
exactly the printed base summary table, whatever the other fields hold, and it makes no
collaborator call: the Docker host IP lookup is not consulted. -/
theorem not_running_renders_base_only (env : Env) (desc : GoMap)
    (hstatus : desc.index "status" ≠ Value.str env.SiteRunning) :
    renderAppDescribe env desc
        = { calls := [], result := Result.ret (baseSummary env desc) none }
      ∧ Call.GetDockerIP ∉ (renderAppDescribe env desc).calls := by
  have hrun := renderAppDescribe_not_running env desc hstatus
  exact ⟨hrun, by simp [hrun]⟩

/-- C1 at a stopped project whose credentials, URLs and phpMyAdmin fields are all set, at
a snapshot without the key `status`, and at one whose `status` is no string. -/
theorem not_running_renders_base_only_witness :
    stoppedDesc.index "status" ≠ Value.str demoEnv.SiteRunning
      ∧ (renderAppDescribe demoEnv stoppedDesc
          = { calls := [], result := Result.ret "NAME\tSTATUS\nsite\tstopped" none }
        ∧ Call.GetDockerIP ∉ (renderAppDescribe demoEnv stoppedDesc).calls)
      ∧ renderAppDescribe demoEnv [("name", Value.str "site")]
          = { calls := [], result := Result.ret "NAME\tSTATUS\nsite\t<nil>" none }
      ∧ renderAppDescribe demoEnv [("name", Value.str "site"), ("status", Value.int 1)]
          = { calls := [], result := Result.ret "NAME\tSTATUS\nsite\t1" none } :=
  ⟨by simp [stoppedDesc, GoMap.index, GoMap.lookup, demoEnv],
   not_running_renders_base_only demoEnv stoppedDesc
     (by simp [stoppedDesc, GoMap.index, GoMap.lookup, demoEnv]),
   (not_running_renders_base_only demoEnv [("name", Value.str "site")]
     (by simp [GoMap.index, GoMap.lookup])).1,
   (not_running_renders_base_only demoEnv [("name", Value.str "site"), ("status", Value.int 1)]
     (by simp [GoMap.index, GoMap.lookup])).1⟩

/-! ## The credentials section -/

/-- C2, as the code has it: for a running snapshot whose `urls` is a string list and whose
`dbinfo` is a mapping without a string `username`, and a successful Docker host IP lookup,
the call succeeds; the header of the MySQL Credentials section is printed, directly followed
by the Other Services header, with no credentials row and no connection hint between them;
the Project Information and Other Services sections are printed. -/
theorem no_username_prints_header_only (env : Env) (desc : GoMap) (urls : List String)
    (dbinfo : GoMap) (dockerIP : String)
    (hstatus : desc.index "status" = Value.str env.SiteRunning)
    (hurls : desc.index "urls" = Value.strList urls)
    (hip : env.GetDockerIP = (dockerIP, none))
    (hdb : desc.index "dbinfo" = Value.map dbinfo)
    (huser : ∀ user, dbinfo.index "username" ≠ Value.str user) :
    renderAppDescribe env desc =
      { calls := [Call.GetDockerIP, Call.RenderRouterStatus, Call.RenderSSHAuthStatus],
        result := Result.ret
          (baseSummary env desc ++ "\n\nProject Information\n-----------------\n"
            ++ env.Sprint (projectInformationTable desc urls)
            ++ "\n\nMySQL Credentials\n-----------------\n"
            ++ "\n\nOther Services\n--------------\n"
            ++ env.Sprint (otherServices desc)
            ++ "\n" ++ env.RenderRouterStatus ++ "\t" ++ env.RenderSSHAuthStatus) none } := by
  rw [renderAppDescribe_running env desc dbinfo dockerIP _ hstatus
    (siteInfo_of_urls desc urls hurls) hip hdb, credentials_of_no_username env dbinfo dockerIP huser]
  simp

/-- C2, as the code has it, at a running project whose `dbinfo` is the empty mapping. -/
theorem no_username_prints_header_only_witness :
    renderAppDescribe demoEnv noUsernameDesc =
      { calls := [Call.GetDockerIP, Call.RenderRouterStatus, Call.RenderSSHAuthStatus],
        result := Result.ret
          (baseSummary demoEnv noUsernameDesc ++ "\n\nProject Information\n-----------------\n"
            ++ demoEnv.Sprint (projectInformationTable noUsernameDesc ["https://a.ddev.site"])
            ++ "\n\nMySQL Credentials\n-----------------\n"
            ++ "\n\nOther Services\n--------------\n"
            ++ demoEnv.Sprint (otherServices noUsernameDesc)
            ++ "\n" ++ demoEnv.RenderRouterStatus ++ "\t" ++ demoEnv.RenderSSHAuthStatus) none } :=
  no_username_prints_header_only demoEnv noUsernameDesc ["https://a.ddev.site"] [] "127.0.0.1"
    rfl rfl rfl rfl (by intro user h; simp [GoMap.index, GoMap.lookup] at h)

set_option maxRecDepth 100000 in
/-- C2 as written fails: at a running project whose `dbinfo` mapping has no `username`, and a
successful lookup, the text "MySQL Credentials" occurs in the output; and at a running
project without the key `dbinfo` the call does not succeed, it panics. -/
theorem credentials_header_counterexample :
    noUsernameDesc.index "status" = Value.str demoEnv.SiteRunning
      ∧ demoEnv.GetDockerIP = ("127.0.0.1", none)
      ∧ noUsernameDesc.lookup "dbinfo" = some (Value.map [])
      ∧ GoMap.lookup [] "username" = none
      ∧ (∃ out, (renderAppDescribe demoEnv noUsernameDesc).result = Result.ret out none
          ∧ Occurs "MySQL Credentials" out)
      ∧ noDbinfoDesc.index "status" = Value.str demoEnv.SiteRunning
      ∧ noDbinfoDesc.lookup "dbinfo" = none
      ∧ (renderAppDescribe demoEnv noDbinfoDesc).result = Result.panic "dbinfo" :=
  ⟨rfl, rfl, rfl, rfl,
   ⟨_, rfl,
    "NAME\tSTATUS\nsite\trunning\n\nProject Information\n-----------------\nPHP version:\t7.2\nURLs:\thttps://a.ddev.site\n\n",
    "\n-----------------\n\n\nOther Services\n--------------\nMailHog:\thttp://a.ddev.site:8025\nrouter: healthy\tssh-agent: ok",
    by decide⟩,
   rfl, rfl, rfl⟩

/-- C3 fails on the code: the assertions `desc["urls"].([]string)` (line 69) and
`desc["dbinfo"].(map[string]interface{})` (line 79) are not guarded. A running snapshot
without `urls` panics before any collaborator call, and so does one whose `urls` has another
type; a running snapshot with `urls` but without `dbinfo` panics after the lookup, and so
does one whose `dbinfo` is no mapping. -/
theorem unguarded_assertions_panic :
    renderAppDescribe demoEnv noUrlsDesc = { calls := [], result := Result.panic "urls" }
      ∧ renderAppDescribe demoEnv (("urls", Value.str "https://a.ddev.site") :: noUrlsDesc)
          = { calls := [], result := Result.panic "urls" }
      ∧ renderAppDescribe demoEnv noDbinfoDesc
          = { calls := [Call.GetDockerIP], result := Result.panic "dbinfo" }
      ∧ renderAppDescribe demoEnv (("dbinfo", Value.str "none") :: noDbinfoDesc)
          = { calls := [Call.GetDockerIP], result := Result.panic "dbinfo" } :=
  ⟨rfl, rfl, rfl, rfl⟩

/-! ## The Docker host IP lookup -/

/-- C4: for a running snapshot with a string-list `urls` and a mapping `dbinfo`, a Docker
host IP lookup that fails with the error `e` makes `renderAppDescribe` return the empty text
together with `e`, nothing of the report built so far; `username` plays no part, and the
lookup is the only collaborator call made. -/
theorem lookup_failure_returns_error_only (env : Env) (desc : GoMap) (urls : List String)
    (dbinfo : GoMap) (ip : String) (e : GoError)
    (hstatus : desc.index "status" = Value.str env.SiteRunning)
    (hurls : desc.index "urls" = Value.strList urls)
    (_hdb : desc.index "dbinfo" = Value.map dbinfo)
    (hip : env.GetDockerIP = (ip, some e)) :
    renderAppDescribe env desc
      = { calls := [Call.GetDockerIP], result := Result.ret "" (some e) } := by
  exact renderAppDescribe_lookup_failed env desc _ ip e hstatus
    (siteInfo_of_urls desc urls hurls) hip

/-- C4 at a running project with a `username`, and at one without. -/
theorem lookup_failure_returns_error_only_witness :
    renderAppDescribe failEnv runningDesc
        = { calls := [Call.GetDockerIP],
            result := Result.ret "" (some { msg := "no docker host" }) }
      ∧ renderAppDescribe failEnv noUsernameDesc
        = { calls := [Call.GetDockerIP],
            result := Result.ret "" (some { msg := "no docker host" }) } :=
  ⟨lookup_failure_returns_error_only failEnv runningDesc _ demoDbinfo "" _ rfl rfl rfl rfl,
   lookup_failure_returns_error_only failEnv noUsernameDesc _ [] "" _ rfl rfl rfl rfl⟩

/-- C10: for a snapshot whose `urls` is a string list and whose `dbinfo` is a mapping,
`renderAppDescribe` returns an error exactly when `status` is Running and the Docker host IP
lookup fails, and that error is the lookup's; in every other case it returns a text with a
nil error. -/
theorem error_iff_running_and_lookup_fails (env : Env) (desc : GoMap) (urls : List String)
    (dbinfo : GoMap)
    (hurls : desc.index "urls" = Value.strList urls)
    (hdb : desc.index "dbinfo" = Value.map dbinfo) :
    ((∃ out e, (renderAppDescribe env desc).result = Result.ret out (some e))
        ↔ (desc.index "status" = Value.str env.SiteRunning ∧ ∃ e, env.GetDockerIP.2 = some e))
      ∧ (∀ out e, (renderAppDescribe env desc).result = Result.ret out (some e)
          → env.GetDockerIP.2 = some e)
      ∧ (¬ (desc.index "status" = Value.str env.SiteRunning ∧ ∃ e, env.GetDockerIP.2 = some e)
          → ∃ out, (renderAppDescribe env desc).result = Result.ret out none) := by
  by_cases hstatus : desc.index "status" = Value.str env.SiteRunning
  · rcases hipv : env.GetDockerIP with ⟨ip, _ | e⟩
    · have hrun := renderAppDescribe_running env desc dbinfo ip _ hstatus
        (siteInfo_of_urls desc urls hurls) hipv hdb
      simp [hrun]
    · have hrun := renderAppDescribe_lookup_failed env desc _ ip e hstatus
        (siteInfo_of_urls desc urls hurls) hipv
      simp [hrun, hstatus]
  · have hrun := renderAppDescribe_not_running env desc hstatus
    simp [hrun, hstatus]

/-- C10 at a running project with a failing lookup (an error), a running project with a
successful lookup and a stopped project with a failing lookup (no error). -/
theorem error_iff_running_and_lookup_fails_witness :
    (∃ out e, (renderAppDescribe failEnv runningDesc).result = Result.ret out (some e))
      ∧ (∃ out, (renderAppDescribe demoEnv runningDesc).result = Result.ret out none)
      ∧ (∃ out, (renderAppDescribe failEnv stoppedDesc).result = Result.ret out none) :=
  ⟨(error_iff_running_and_lookup_fails failEnv runningDesc _ demoDbinfo rfl rfl).1.2
      ⟨rfl, _, rfl⟩,
   (error_iff_running_and_lookup_fails demoEnv runningDesc _ demoDbinfo rfl rfl).2.2
      (by rintro ⟨_, e, he⟩; simp [demoEnv] at he),
   (error_iff_running_and_lookup_fails failEnv stoppedDesc _ demoDbinfo rfl rfl).2.2
      (by rintro ⟨hs, _⟩; simp [stoppedDesc, GoMap.index, GoMap.lookup, failEnv, demoEnv] at hs)⟩

/-! ## The sections of a running project -/

/-- C5, as the code has it: for a running snapshot whose `urls` is a string list, whose
`dbinfo.username` is a string and whose `dbinfo.published_port` is the integer `p`, and a
successful Docker host IP lookup giving `ip`, the call succeeds and its output holds the
connection hint, with `p` in decimal and `ip` as looked up, directly after the printed
credentials table and directly before the Other Services header. -/
theorem connection_hint_after_credentials (env : Env) (desc : GoMap) (urls : List String)
    (dbinfo : GoMap) (user ip : String) (p : Int)
    (hstatus : desc.index "status" = Value.str env.SiteRunning)
    (hurls : desc.index "urls" = Value.strList urls)
    (hdb : desc.index "dbinfo" = Value.map dbinfo)
    (huser : dbinfo.index "username" = Value.str user)
    (hport : dbinfo.index "published_port" = Value.int p)
    (hip : env.GetDockerIP = (ip, none)) :
    ∃ pre post, (renderAppDescribe env desc).result
      = Result.ret (pre ++ env.Sprint (credentialsTable dbinfo) ++ connectionHint p ip
          ++ "\n\nOther Services\n--------------\n" ++ post) none := by
  refine ⟨baseSummary env desc ++ "\n\nProject Information\n-----------------\n"
      ++ env.Sprint (projectInformationTable desc urls)
      ++ "\n\nMySQL Credentials\n-----------------\n",
    env.Sprint (otherServices desc) ++ "\n" ++ env.RenderRouterStatus ++ "\t"
      ++ env.RenderSSHAuthStatus, ?_⟩
  rw [renderAppDescribe_running env desc dbinfo ip _ hstatus
    (siteInfo_of_urls desc urls hurls) hip hdb, credentials_of_username env dbinfo ip user huser,
    hport]
  simp [Env.fmtD, connectionHint, String.append_assoc]

set_option maxRecDepth 100000 in
/-- C5, as the code has it, at a running project with the published port 32768 and the
host 127.0.0.1. -/
theorem connection_hint_after_credentials_witness :
    (∃ pre post, (renderAppDescribe demoEnv runningDesc).result
      = Result.ret (pre ++ demoEnv.Sprint (credentialsTable demoDbinfo)
          ++ connectionHint 32768 "127.0.0.1"
          ++ "\n\nOther Services\n--------------\n" ++ post) none)
      ∧ connectionHint 32768 "127.0.0.1"
          = "\nTo connect to mysql from your host machine, use port 32768 on 127.0.0.1.\nFor example: mysql --host=127.0.0.1 --port=32768 --user=db --password=db --database=db" :=
  ⟨connection_hint_after_credentials demoEnv runningDesc _ demoDbinfo "db" "127.0.0.1" 32768
    rfl rfl rfl rfl rfl rfl, by decide⟩

/-- C5 as written fails: at a running project without the key `urls`, whose
`dbinfo.username` is a string and whose `dbinfo.published_port` is the integer 32768, with a
successful lookup giving 127.0.0.1, the assertion of line 69 panics before the lookup is
made: no text is returned, so no connection hint is. -/
theorem connection_hint_counterexample :
    noUrlsDesc.index "status" = Value.str demoEnv.SiteRunning
      ∧ noUrlsDesc.index "dbinfo" = Value.map demoDbinfo
      ∧ demoDbinfo.index "username" = Value.str "db"
      ∧ demoDbinfo.index "published_port" = Value.int 32768
      ∧ demoEnv.GetDockerIP = ("127.0.0.1", none)
      ∧ noUrlsDesc.lookup "urls" = none
      ∧ renderAppDescribe demoEnv noUrlsDesc = { calls := [], result := Result.panic "urls" }
      ∧ ¬ ∃ pre post err, (renderAppDescribe demoEnv noUrlsDesc).result
            = Result.ret (pre ++ demoEnv.Sprint (credentialsTable demoDbinfo)
                ++ connectionHint 32768 "127.0.0.1"
                ++ "\n\nOther Services\n--------------\n" ++ post) err :=
  ⟨rfl, rfl, rfl, rfl, rfl, rfl, rfl, by
    rintro ⟨pre, post, err, h⟩
    have hp : (renderAppDescribe demoEnv noUrlsDesc).result = Result.panic "urls" := rfl
    rw [hp] at h
    exact Result.noConfusion h⟩

/-- C6: for a running snapshot whose `urls` is a string list, the cell of the "URLs:" row
of the Project Information table is the elements of `urls` in the order given, joined with
", " (the empty text for no URL, the URL itself for one); and when the call goes on to
return a report, this table is printed right after the Project Information header. The
join in the order given is also the join of the list library. -/
theorem urls_joined_in_input_order (env : Env) (desc : GoMap) (urls : List String)
    (hstatus : desc.index "status" = Value.str env.SiteRunning)
    (hurls : desc.index "urls" = Value.strList urls) :
    siteInfo desc = some
        { MaxColWidth := 0,
          Rows := [[Value.str "PHP version:", desc.index "php_version"],
                   [Value.str "URLs:", Value.str (joinedInOrder ", " urls)]] }
      ∧ joinedInOrder ", " urls = ", ".intercalate urls
      ∧ (∀ ip dbinfo, env.GetDockerIP = (ip, none) → desc.index "dbinfo" = Value.map dbinfo →
          ∃ post, (renderAppDescribe env desc).result
            = Result.ret (baseSummary env desc ++ "\n\nProject Information\n-----------------\n"
                ++ env.Sprint
                  { MaxColWidth := 0,
                    Rows := [[Value.str "PHP version:", desc.index "php_version"],
                             [Value.str "URLs:", Value.str (joinedInOrder ", " urls)]] }
                ++ post) none) := by
  refine ⟨siteInfo_of_urls desc urls hurls, ?_, ?_⟩
  · rw [← stringsJoin_eq_joinedInOrder, stringsJoin_eq_intercalate]
  intro ip dbinfo hip hdb
  refine ⟨"\n\nMySQL Credentials\n-----------------\n" ++ credentials env dbinfo ip
      ++ "\n\nOther Services\n--------------\n" ++ env.Sprint (otherServices desc)
      ++ "\n" ++ env.RenderRouterStatus ++ "\t" ++ env.RenderSSHAuthStatus, ?_⟩
  rw [renderAppDescribe_running env desc dbinfo ip _ hstatus
    (siteInfo_of_urls desc urls hurls) hip hdb]
  simp [projectInformationTable, String.append_assoc]

/-- C6 at the two URLs of the specification's example. -/
theorem urls_joined_in_input_order_witness :
    siteInfo runningDesc = some
        { MaxColWidth := 0,
          Rows := [[Value.str "PHP version:", Value.str "7.2"],
                   [Value.str "URLs:", Value.str "https://a.ddev.site, https://b.ddev.site"]] }
      ∧ joinedInOrder ", " [] = "" ∧ joinedInOrder ", " ["https://a.ddev.site"] = "https://a.ddev.site" :=
  ⟨(urls_joined_in_input_order demoEnv runningDesc
      ["https://a.ddev.site", "https://b.ddev.site"] rfl rfl).1, rfl, rfl⟩

/-- The Other Services table has the MailHog row alone when the key is absent. -/
theorem otherServices_of_absent (desc : GoMap) (h : desc.lookup "phpmyadmin_url" = none) :
    otherServices desc
      = { MaxColWidth := 0, Rows := [[Value.str "MailHog:", desc.index "mailhog_url"]] } := by
  simp [otherServices, h, UITable.New, UITable.AddRow]

/-- The Other Services table has the phpMyAdmin row after the MailHog row when the key is
present. -/
theorem otherServices_of_present (desc : GoMap) (v : Value)
    (h : desc.lookup "phpmyadmin_url" = some v) :
    otherServices desc
      = { MaxColWidth := 0,
          Rows := [[Value.str "MailHog:", desc.index "mailhog_url"],
                   [Value.str "phpMyAdmin:", v]] } := by
  simp [otherServices, h, UITable.New, UITable.AddRow, GoMap.index]

/-- A running call that returns a report returns the whole report. -/
theorem renderAppDescribe_running_ok (env : Env) (desc : GoMap) (calls : List Call)
    (out : String)
    (hstatus : desc.index "status" = Value.str env.SiteRunning)
    (hok : renderAppDescribe env desc = { calls := calls, result := Result.ret out none }) :
    ∃ tbl dbinfo ip, siteInfo desc = some tbl ∧ desc.index "dbinfo" = Value.map dbinfo
      ∧ env.GetDockerIP = (ip, none)
      ∧ out = baseSummary env desc ++ "\n\nProject Information\n-----------------\n"
            ++ env.Sprint tbl ++ "\n\nMySQL Credentials\n-----------------\n"
            ++ credentials env dbinfo ip ++ "\n\nOther Services\n--------------\n"
            ++ env.Sprint (otherServices desc)
            ++ "\n" ++ env.RenderRouterStatus ++ "\t" ++ env.RenderSSHAuthStatus := by
  have h : (desc.index "status").eqString env.SiteRunning = true :=
    (eqString_eq_true_iff _ _).2 hstatus
  cases hsite : siteInfo desc with
  | none => simp [renderAppDescribe, h, hsite] at hok
  | some tbl =>
    rcases hipv : env.GetDockerIP with ⟨ip, _ | e⟩
    · cases hdbv : desc.index "dbinfo" with
      | map dbinfo =>
        have hrun := renderAppDescribe_running env desc dbinfo ip tbl hstatus hsite hipv hdbv
        rw [hrun] at hok
        simp only [Rendered.mk.injEq, Result.ret.injEq] at hok
        exact ⟨tbl, dbinfo, ip, rfl, rfl, rfl, hok.2.1.symm⟩
      | nil => simp [renderAppDescribe, h, hsite, hipv, hdbv] at hok
      | str _ => simp [renderAppDescribe, h, hsite, hipv, hdbv] at hok
      | int _ => simp [renderAppDescribe, h, hsite, hipv, hdbv] at hok
      | strList _ => simp [renderAppDescribe, h, hsite, hipv, hdbv] at hok
      | other _ => simp [renderAppDescribe, h, hsite, hipv, hdbv] at hok
    · simp [renderAppDescribe, h, hsite, hipv] at hok

/-- C7: for a running snapshot that renders successfully, the report ends with the Other
Services header, the printed Other Services table and the status line, and that table has a
"phpMyAdmin:" row exactly when the key `phpmyadmin_url` is in the snapshot: the MailHog row
alone when the key is absent, and the MailHog row followed by the phpMyAdmin row with the
key's value, whatever it is, when the key is present. -/
theorem phpmyadmin_row_iff_key_present (env : Env) (desc : GoMap) (calls : List Call)
    (out : String)
    (hstatus : desc.index "status" = Value.str env.SiteRunning)
    (hok : renderAppDescribe env desc = { calls := calls, result := Result.ret out none }) :
    (∃ pre, out = pre ++ "\n\nOther Services\n--------------\n"
        ++ env.Sprint (otherServices desc)
        ++ "\n" ++ env.RenderRouterStatus ++ "\t" ++ env.RenderSSHAuthStatus)
      ∧ (desc.lookup "phpmyadmin_url" = none →
          (otherServices desc).Rows = [[Value.str "MailHog:", desc.index "mailhog_url"]])
      ∧ (∀ v, desc.lookup "phpmyadmin_url" = some v →
          (otherServices desc).Rows
            = [[Value.str "MailHog:", desc.index "mailhog_url"], [Value.str "phpMyAdmin:", v]])
      ∧ ((∃ v, [Value.str "phpMyAdmin:", v] ∈ (otherServices desc).Rows)
          ↔ ∃ v, desc.lookup "phpmyadmin_url" = some v) := by
  obtain ⟨tbl, dbinfo, ip, _, _, _, hout⟩ :=
    renderAppDescribe_running_ok env desc calls out hstatus hok
  refine ⟨⟨_, hout⟩, ?_, ?_, ?_⟩
  · intro h
    rw [otherServices_of_absent desc h]
  · intro v h
    rw [otherServices_of_present desc v h]
  · cases hkey : desc.lookup "phpmyadmin_url" with
    | none =>
      rw [otherServices_of_absent desc hkey]
      simp
    | some v =>
      rw [otherServices_of_present desc v hkey]
      simp

set_option maxRecDepth 100000 in
/-- C7 at a running project with the key (two rows) and at one without it (one row). -/
theorem phpmyadmin_row_iff_key_present_witness :
    (otherServices runningDesc).Rows
        = [[Value.str "MailHog:", Value.str "http://a.ddev.site:8025"],
           [Value.str "phpMyAdmin:", Value.str "http://a.ddev.site:8036"]]
      ∧ (otherServices noUsernameDesc).Rows
        = [[Value.str "MailHog:", Value.str "http://a.ddev.site:8025"]] :=
  ⟨(phpmyadmin_row_iff_key_present demoEnv runningDesc _ _ rfl rfl).2.2.1 _ rfl,
   (phpmyadmin_row_iff_key_present demoEnv noUsernameDesc _ _ rfl rfl).2.1 rfl⟩

/-- C8, as the code has it: for a running snapshot (its `urls` a string list) with a
string `dbinfo.username` and a successful Docker host IP lookup, the returned text is the
base summary table, the Project Information section, the MySQL Credentials section with its
connection hint and the Other Services section, in this order and with a blank line between
neighbours, followed by a single newline and the status line (router status, tab, SSH-agent
status): no blank line stands before the status line. -/
theorem running_report_layout (env : Env) (desc : GoMap) (urls : List String)
    (dbinfo : GoMap) (user ip : String)
    (hstatus : desc.index "status" = Value.str env.SiteRunning)
    (hurls : desc.index "urls" = Value.strList urls)
    (hdb : desc.index "dbinfo" = Value.map dbinfo)
    (huser : dbinfo.index "username" = Value.str user)
    (hip : env.GetDockerIP = (ip, none)) :
    renderAppDescribe env desc =
      { calls := [Call.GetDockerIP, Call.RenderRouterStatus, Call.RenderSSHAuthStatus],
        result := Result.ret
          (blankLineSeparated [baseSummary env desc, sectionProjectInformation env desc urls,
              sectionCredentials env dbinfo ip, sectionOtherServices env desc]
            ++ "\n" ++ statusLine env) none } := by
  have h1 : "\n\nProject Information\n-----------------\n"
      = "\n\n" ++ "Project Information\n-----------------\n" := by decide
  have h2 : "\n\nMySQL Credentials\n-----------------\n"
      = "\n\n" ++ "MySQL Credentials\n-----------------\n" := by decide
  have h3 : "\n\nOther Services\n--------------\n"
      = "\n\n" ++ "Other Services\n--------------\n" := by decide
  rw [renderAppDescribe_running env desc dbinfo ip _ hstatus
    (siteInfo_of_urls desc urls hurls) hip hdb, credentials_of_username env dbinfo ip user huser,
    h1, h2, h3]
  simp only [blankLineSeparated, String.intercalate, String.intercalate.go,
    sectionProjectInformation, sectionCredentials, sectionOtherServices, statusLine,
    String.append_assoc]

set_option maxRecDepth 100000 in
/-- C8, as the code has it, at a running project: the whole report. -/
theorem running_report_layout_witness :
    renderAppDescribe demoEnv runningDesc =
      { calls := [Call.GetDockerIP, Call.RenderRouterStatus, Call.RenderSSHAuthStatus],
        result := Result.ret
          (blankLineSeparated [baseSummary demoEnv runningDesc,
              sectionProjectInformation demoEnv runningDesc
                ["https://a.ddev.site", "https://b.ddev.site"],
              sectionCredentials demoEnv demoDbinfo "127.0.0.1",
              sectionOtherServices demoEnv runningDesc]
            ++ "\n" ++ statusLine demoEnv) none } :=
  running_report_layout demoEnv runningDesc _ demoDbinfo "db" "127.0.0.1" rfl rfl rfl rfl rfl

set_option maxRecDepth 100000 in
/-- C8 as written fails: at a running project with a string `username` and a successful
lookup, the returned text is not the five parts with a blank line between neighbours; the
status line follows the Other Services table after one newline. -/
theorem blank_line_layout_counterexample :
    runningDesc.index "status" = Value.str demoEnv.SiteRunning
      ∧ demoDbinfo.index "username" = Value.str "db"
      ∧ runningDesc.index "dbinfo" = Value.map demoDbinfo
      ∧ demoEnv.GetDockerIP = ("127.0.0.1", none)
      ∧ (renderAppDescribe demoEnv runningDesc).result
          ≠ Result.ret
              (blankLineSeparated [baseSummary demoEnv runningDesc,
                sectionProjectInformation demoEnv runningDesc
                  ["https://a.ddev.site", "https://b.ddev.site"],
                sectionCredentials demoEnv demoDbinfo "127.0.0.1",
                sectionOtherServices demoEnv runningDesc,
                statusLine demoEnv]) none
      ∧ (renderAppDescribe demoEnv runningDesc).result
          = Result.ret
              "NAME\tSTATUS\nsite\trunning\n\nProject Information\n-----------------\nPHP version:\t7.2\nURLs:\thttps://a.ddev.site, https://b.ddev.site\n\nMySQL Credentials\n-----------------\nUsername:\tdb\nPassword:\tdb\nDatabase name:\tdb\nHost:\tdb\nPort:\t3306\nMariaDB version\t10.2\nTo connect to mysql from your host machine, use port 32768 on 127.0.0.1.\nFor example: mysql --host=127.0.0.1 --port=32768 --user=db --password=db --database=db\n\nOther Services\n--------------\nMailHog:\thttp://a.ddev.site:8025\nphpMyAdmin:\thttp://a.ddev.site:8036\nrouter: healthy\tssh-agent: ok"
              none :=
  ⟨rfl, rfl, rfl, rfl, by decide, by decide⟩

/-! ## The command handler -/

/-- C9: with more than one positional argument the handler reports the error "Too many
arguments provided..." and stops there: the project resolver, the missing-files check, the
snapshot fetch and the renderer are called zero times and nothing is printed. -/
theorem too_many_arguments_aborts (env : CmdEnv) (args : List String)
    (hargs : args.length > 1) :
    DescribeCommand.Run env args []
        = ([Event.reported
              "Too many arguments provided. Please use 'ddev describe' or 'ddev describe [projectname]'"],
            Except.error Exit.failed)
      ∧ (DescribeCommand.Run env args []).1.countP Event.isResolve = 0
      ∧ (DescribeCommand.Run env args []).1.countP Event.isMissingFilesCheck = 0
      ∧ (DescribeCommand.Run env args []).1.countP Event.isDescribe = 0
      ∧ (DescribeCommand.Run env args []).1.countP Event.isRender = 0
      ∧ (DescribeCommand.Run env args []).1.countP Event.isPrint = 0 := by
  have hrun : DescribeCommand.Run env args []
      = ([Event.reported
            "Too many arguments provided. Please use 'ddev describe' or 'ddev describe [projectname]'"],
          Except.error Exit.failed) := by
    simp only [DescribeCommand.Run, hargs, if_true]
    rfl
  rw [hrun]
  exact ⟨rfl, rfl, rfl, rfl, rfl, rfl⟩

/-- C9 at two positional arguments. -/
theorem too_many_arguments_aborts_witness :
    (DescribeCommand.Run demoCmdEnv ["a", "b"] []).1.countP Event.isDescribe = 0
      ∧ (DescribeCommand.Run demoCmdEnv ["a", "b"] []).2 = Except.error Exit.failed :=
  ⟨(too_many_arguments_aborts demoCmdEnv ["a", "b"] (by decide)).2.2.2.1,
   congrArg Prod.snd (too_many_arguments_aborts demoCmdEnv ["a", "b"] (by decide)).1⟩

end Describe
